import Mathlib

/-!
Verification development for the habitat-sim scene-state recording/replay
subsystem (`esp::gfx::replay::Recorder` / `Player`) and the sensor classes
(`esp::sensor::VisualSensor`, `esp::sensor::SensorSuite`).

The Recorder/Player implementation files are not among the reviewed sources
(only the test `src/tests/GfxReplayTest.cpp` exercising them is), so the
Recorder and Player are modelled from the specification text, as flagged in
each doc comment.  The sensor definitions are translated directly from
`esp/sensor/VisualSensor.{h,cpp}` and `esp/sensor/Sensor.cpp`.

Floating-point vector/quaternion components are embedded as exact integers:
every scenario in the tests uses small exactly representable values and only
equality comparisons, never arithmetic on the components.
-/

namespace HabitatReplay

/-- Integer 3-vector standing in for `Magnum::Vector3`. -/
structure Vec3 where
  x : Int
  y : Int
  z : Int
deriving DecidableEq, Repr

/-- Quaternion standing in for `Magnum::Quaternion` (components only compared
for equality, never composed). -/
structure Quat where
  w : Int
  x : Int
  y : Int
  z : Int
deriving DecidableEq, Repr

/-- The identity quaternion, `Mn::Quaternion(Mn::Math::IdentityInit)`. -/
def idQuat : Quat := ⟨1, 0, 0, 0⟩

/-- A rigid transform: translation plus rotation, as in
`esp::gfx::replay::Transform`. -/
structure Transform where
  translation : Vec3
  rotation : Quat
deriving DecidableEq, Repr

/-- The identity transform. -/
def idTransform : Transform := ⟨⟨0, 0, 0⟩, idQuat⟩

/-- Embeds `esp::assets::AssetInfo`: identifies a loadable asset; equality on all
fields is used to deduplicate load records. -/
structure AssetInfo where
  filepath : String
deriving DecidableEq, Repr

/-- Embeds `esp::assets::RenderAssetInstanceCreationInfo`: immutable parameters used
to instantiate a renderable from a loaded asset. -/
structure CreationInfo where
  filepath : String
  scale : Option Vec3
  isRGBD : Bool
  isSemantic : Bool
  lightSetupKey : String
deriving DecidableEq, Repr

/-- Embeds `esp::gfx::replay::RenderAssetInstanceKey`: a session-local integer key. -/
abbrev RenderAssetInstanceKey := Nat

/-- Embeds `esp::gfx::replay::RenderAssetInstanceState`: the mutable per-instance
state (absolute transform plus semantic id). -/
structure RenderAssetInstanceState where
  absTransform : Transform
  semanticId : Int
deriving DecidableEq, Repr

/-- Embeds `esp::gfx::replay::Keyframe`: an immutable delta record.  The maps
(`stateUpdates`, `userTransforms`) are embedded as association lists, matching
the vector-of-pairs / `unordered_map` layout shown in the test's reference
copy of the struct. -/
structure Keyframe where
  loads : List AssetInfo
  creations : List (RenderAssetInstanceKey × CreationInfo)
  deletions : List RenderAssetInstanceKey
  stateUpdates : List (RenderAssetInstanceKey × RenderAssetInstanceState)
  userTransforms : List (String × Transform)
deriving DecidableEq, Repr

/-- The empty keyframe. -/
def emptyKeyframe : Keyframe := ⟨[], [], [], [], []⟩

/-! ### Association-list map primitives

Small-step helpers shared by the Recorder and Player models. -/

/-- Look a key up in an association list (first match wins). -/
def lookupKey {κ α : Type} [DecidableEq κ] (k : κ) : List (κ × α) → Option α
  | [] => none
  | p :: t => if p.1 = k then some p.2 else lookupKey k t

/-- Insert or overwrite a binding in an association list (last-write-wins
map-update; appends if absent). -/
def setKey {κ α : Type} [DecidableEq κ] (k : κ) (v : α) :
    List (κ × α) → List (κ × α)
  | [] => [(k, v)]
  | p :: t => if p.1 = k then (k, v) :: t else p :: setKey k v t

/-- Overwrite a binding only if the key is present; a no-op otherwise. -/
def updateKey {κ α : Type} [DecidableEq κ] (k : κ) (v : α) :
    List (κ × α) → List (κ × α)
  | [] => []
  | p :: t => if p.1 = k then (k, v) :: t else p :: updateKey k v t

/-- Remove every binding for a key (a no-op if the key is absent). -/
def eraseKey {κ α : Type} [DecidableEq κ] (k : κ) (l : List (κ × α)) :
    List (κ × α) :=
  l.filter (fun p => p.1 ≠ k)

/-! ### Player

`esp::gfx::replay::Player` is not among the reviewed sources; it is modelled
from the specification (§4.2).  The asset-loader collaborator is a
dependency-injected callback; in the embedding only its success/failure for a
given creation matters (a bound live object's observable state is its
transform and semantic id, which the Player itself sets). -/

/-- The Player's asset-loader collaborator: whether instantiating from the
given creation parameters yields a usable live-object handle (`true`) or a
null/failure handle (`false`). -/
abbrev LoadCallback := CreationInfo → Bool

/-- The observable state a live instance starts in right after creation,
before any state update is applied (a default-constructed scene node). -/
def defaultState : RenderAssetInstanceState := ⟨idTransform, 0⟩

/-- Modelled from the spec: the Player's mutable reconstruction state — the
loaded keyframe log, the current index in `[-1, N-1]`, the map from
RenderAssetInstanceKey to the state of its bound live object (keys whose
creation failed are absent: they are left unbound), and the accumulated
`userTransforms` map. -/
structure PlayerState where
  keyframes : List Keyframe
  index : Int
  instances : List (RenderAssetInstanceKey × RenderAssetInstanceState)
  userTransforms : List (String × Transform)
deriving DecidableEq, Repr

/-- Modelled from the spec: forward application of one keyframe's creations —
instantiate via the callback and bind the resulting handle under the key; if
the callback returns a failure handle, skip binding for that key but do not
abort the rest. -/
def applyCreations (cb : LoadCallback)
    (inst : List (RenderAssetInstanceKey × RenderAssetInstanceState)) :
    List (RenderAssetInstanceKey × CreationInfo) →
    List (RenderAssetInstanceKey × RenderAssetInstanceState)
  | [] => inst
  | c :: t =>
    applyCreations cb (if cb c.2 then setKey c.1 defaultState inst else inst) t

/-- Modelled from the spec: apply a keyframe's state updates — set
transform/semantic id on each bound live object; an update addressed to an
unbound key is a no-op. -/
def applyStateUpdates
    (inst : List (RenderAssetInstanceKey × RenderAssetInstanceState)) :
    List (RenderAssetInstanceKey × RenderAssetInstanceState) →
    List (RenderAssetInstanceKey × RenderAssetInstanceState)
  | [] => inst
  | u :: t => applyStateUpdates (updateKey u.1 u.2 inst) t

/-- Modelled from the spec: apply a keyframe's deletions — destroy and unbind
the live object for each key; a deletion addressed to an unbound key is a
no-op. -/
def applyDeletions
    (inst : List (RenderAssetInstanceKey × RenderAssetInstanceState)) :
    List RenderAssetInstanceKey →
    List (RenderAssetInstanceKey × RenderAssetInstanceState)
  | [] => inst
  | k :: t => applyDeletions (eraseKey k inst) t

/-- Modelled from the spec: forward application of a single keyframe to the
live-instance map, in order: loads (no effect on the instance map), then
creations, then state updates, then deletions. -/
def applyKeyframe (cb : LoadCallback)
    (inst : List (RenderAssetInstanceKey × RenderAssetInstanceState))
    (kf : Keyframe) :
    List (RenderAssetInstanceKey × RenderAssetInstanceState) :=
  applyDeletions
    (applyStateUpdates (applyCreations cb inst kf.creations) kf.stateUpdates)
    kf.deletions

/-- Full forward replay of a keyframe list onto the empty instance map. -/
def replayInstances (cb : LoadCallback) (kfs : List Keyframe) :
    List (RenderAssetInstanceKey × RenderAssetInstanceState) :=
  kfs.foldl (applyKeyframe cb) []

/-- Modelled from the spec: the accumulated `userTransforms` map over a list
of keyframes — the last-write-wins union, by name, of every keyframe's
`userTransforms` entries in order. -/
def replayUserTransforms (kfs : List Keyframe) : List (String × Transform) :=
  kfs.foldl
    (fun m kf => kf.userTransforms.foldl (fun m' p => setKey p.1 p.2 m') m) []

/-- The canonical Player state at index `t`: the state a full forward replay
of keyframes `0 .. t` from the empty state produces (index `-1` is the empty
initial state). -/
def stateAt (cb : LoadCallback) (kfs : List Keyframe) (t : Int) : PlayerState :=
  ⟨kfs, t, replayInstances cb (kfs.take (t + 1).toNat),
    replayUserTransforms (kfs.take (t + 1).toNat)⟩

/-- Modelled from the spec: `Player::setKeyframeIndex(target)`.  An
out-of-range target is rejected (no state change).  A forward seek applies
keyframes `current+1 .. target` in order; a backward seek resets the live
state and forward-replays keyframes `0 .. target` (the spec's required
semantics: the result must equal a full forward replay from `-1`).  The
`userTransforms` map is always fully recomputed over keyframes
`0 .. target`. -/
def setKeyframeIndex (cb : LoadCallback) (s : PlayerState) (target : Int) :
    PlayerState :=
  if target < -1 ∨ (s.keyframes.length : Int) ≤ target then s
  else if target < s.index then
    ⟨s.keyframes, target, replayInstances cb (s.keyframes.take (target + 1).toNat),
      replayUserTransforms (s.keyframes.take (target + 1).toNat)⟩
  else
    ⟨s.keyframes, target,
      ((s.keyframes.drop (s.index + 1).toNat).take (target - s.index).toNat).foldl
        (applyKeyframe cb) s.instances,
      replayUserTransforms (s.keyframes.take (target + 1).toNat)⟩

/-- Embeds `Player::getNumKeyframes()`. -/
def getNumKeyframes (s : PlayerState) : Nat := s.keyframes.length

/-- Embeds `Player::getKeyframeIndex()`. -/
def getKeyframeIndex (s : PlayerState) : Int := s.index

/-- Embeds `Player::getUserTransform(name)`: `some` of the transform when `name`
exists in the accumulated map at the current index, `none` (the `false`
return) otherwise. -/
def getUserTransform (s : PlayerState) (name : String) : Option Transform :=
  lookupKey name s.userTransforms

/-- Modelled from the spec: `Player::readKeyframesFromFile(path)` — the
deserialization code is not among the reviewed sources.  `content` is the
file's text (`none` for a missing file) and `parse` the structured-text
deserializer (`none` on malformed content).  The loaded log is replaced
wholesale and the live reconstruction state reset; on missing file or
malformed content the player ends with zero keyframes at index `-1`.  The
function is total: no failure escapes to the caller. -/
def readKeyframesFromFile (parse : String → Option (List Keyframe))
    (_s : PlayerState) (content : Option String) : PlayerState :=
  match content with
  | none => ⟨[], -1, [], []⟩
  | some txt =>
    match parse txt with
    | none => ⟨[], -1, [], []⟩
    | some kfs => ⟨kfs, -1, [], []⟩

/-! ### Recorder

`esp::gfx::replay::Recorder` is not among the reviewed sources; it is
modelled from the specification (§4.1).  Scene-graph nodes are embedded as
their observable state (transform, semantic id, destroyed flag); node
mutations and destruction are explicit operations addressed by the tracked
key the node is bound to. -/

/-- The observable state of a scene-graph node bound to a tracked key. -/
structure NodeState where
  transform : Transform
  semanticId : Int
  destroyed : Bool
deriving DecidableEq, Repr

/-- Modelled from the spec: the Recorder's state — the append-only saved log,
the pending keyframe, the next never-used key, the tracked live nodes keyed
by their RenderAssetInstanceKey, and the last-recorded state per key. -/
structure Recorder where
  savedKeyframes : List Keyframe
  pending : Keyframe
  nextKey : Nat
  trackedNodes : List (Nat × NodeState)
  latestRecorded : List (Nat × RenderAssetInstanceState)
deriving DecidableEq, Repr

/-- The freshly constructed Recorder. -/
def initRecorder : Recorder := ⟨[], emptyKeyframe, 0, [], []⟩

/-- One step of driving a Recorder session: the Recorder's own operations
plus the external scene mutations (node moves, destruction) it observes. -/
inductive RecorderOp where
  | load (info : AssetInfo)
  | create (node : NodeState) (cinfo : CreationInfo)
  | setTranslation (k : Nat) (v : Vec3)
  | setSemId (k : Nat) (i : Int)
  | destroyNode (k : Nat)
  | addUserTransform (name : String) (t : Transform)
  | save
deriving DecidableEq, Repr

/-- Every load record in the log so far: the saved keyframes' `loads` in
order, then the pending keyframe's. -/
def allLoads (r : Recorder) : List AssetInfo :=
  (r.savedKeyframes.map Keyframe.loads).flatten ++ r.pending.loads

/-- Every creation key in the log so far (saved keyframes then pending). -/
def allCreationKeys (r : Recorder) : List Nat :=
  ((r.savedKeyframes.map Keyframe.creations).flatten ++ r.pending.creations).map
    Prod.fst

/-- Apply a function to the node bound to key `k` (a no-op for other keys). -/
def mapNode (k : Nat) (f : NodeState → NodeState) :
    List (Nat × NodeState) → List (Nat × NodeState) :=
  List.map (fun p => if p.1 = k then (p.1, f p.2) else p)

/-- The state-update records `saveKeyframe` computes: for every still-live
tracked key, its node's current state when it differs from the last-recorded
state or no state was ever recorded for the key. -/
def pendingUpdates (live : List (Nat × NodeState))
    (latest : List (Nat × RenderAssetInstanceState)) :
    List (Nat × RenderAssetInstanceState) :=
  live.filterMap (fun p =>
    let cur : RenderAssetInstanceState := ⟨p.2.transform, p.2.semanticId⟩
    match lookupKey p.1 latest with
    | some prev => if cur = prev then none else some (p.1, cur)
    | none => some (p.1, cur))

/-- Modelled from the spec: one Recorder step.
* `load info` (`onLoadRenderAsset`): append to the pending keyframe's `loads`
  unless an equal AssetInfo was already recorded in this or any earlier
  keyframe.
* `create node cinfo` (`onCreateRenderAssetInstance`): allocate the fresh key,
  bind the node for tracking, append the creation, and immediately
  force-record a state update for the key.
* `setTranslation` / `setSemId` / `destroyNode`: external mutations of the
  bound node, observed later by the save pass.
* `addUserTransform` (`addUserTransformToKeyframe`): insert/overwrite in the
  pending keyframe's `userTransforms`.
* `save` (`saveKeyframe`): append destroyed tracked keys to `deletions` and
  retire them; append a state update for every still-live key whose state
  changed (or was never recorded); append the pending keyframe to the log and
  open a fresh empty one. -/
def recordStep (r : Recorder) : RecorderOp → Recorder
  | .load info =>
    if info ∈ allLoads r then r
    else { r with pending := { r.pending with loads := r.pending.loads ++ [info] } }
  | .create node cinfo =>
    let k := r.nextKey
    let st : RenderAssetInstanceState := ⟨node.transform, node.semanticId⟩
    { r with
      pending := { r.pending with
        creations := r.pending.creations ++ [(k, cinfo)]
        stateUpdates := r.pending.stateUpdates ++ [(k, st)] }
      nextKey := k + 1
      trackedNodes := r.trackedNodes ++ [(k, node)]
      latestRecorded := setKey k st r.latestRecorded }
  | .setTranslation k v =>
    let f := fun n : NodeState =>
      { n with transform := { n.transform with translation := v } }
    { r with trackedNodes := mapNode k f r.trackedNodes }
  | .setSemId k i =>
    let f := fun n : NodeState => { n with semanticId := i }
    { r with trackedNodes := mapNode k f r.trackedNodes }
  | .destroyNode k =>
    let f := fun n : NodeState => { n with destroyed := true }
    { r with trackedNodes := mapNode k f r.trackedNodes }
  | .addUserTransform name t =>
    { r with pending := { r.pending with
        userTransforms := setKey name t r.pending.userTransforms } }
  | .save =>
    let dead := (r.trackedNodes.filter (fun p => p.2.destroyed)).map Prod.fst
    let live := r.trackedNodes.filter (fun p => !p.2.destroyed)
    let updates := pendingUpdates live r.latestRecorded
    let kf : Keyframe := { r.pending with
      deletions := r.pending.deletions ++ dead
      stateUpdates := r.pending.stateUpdates ++ updates }
    { savedKeyframes := r.savedKeyframes ++ [kf]
      pending := emptyKeyframe
      nextKey := r.nextKey
      trackedNodes := live
      latestRecorded := updates.foldl (fun m p => setKey p.1 p.2 m) r.latestRecorded }

/-- Run a whole Recorder session from the fresh Recorder. -/
def runRecorder (ops : List RecorderOp) : Recorder :=
  ops.foldl recordStep initRecorder

/-- Occurrences of one AssetInfo in a load list. -/
def countInfo (info : AssetInfo) : List AssetInfo → Nat
  | [] => 0
  | a :: t => (if a = info then 1 else 0) + countInfo info t

/-! ### Concrete scenario data from `src/tests/GfxReplayTest.cpp` -/

/-- The test asset, `objects/transform_box.glb`. -/
def infoBox : AssetInfo := ⟨"objects/transform_box.glb"⟩

/-- The test creation parameters: the box file, no scale, IsRGBD and
IsSemantic flags set, empty light-setup key. -/
def creationBox : CreationInfo := ⟨"objects/transform_box.glb", none, true, true, ""⟩

/-- A callback whose every instantiation succeeds (the test's
`loadAndCreateRenderAssetInstance` hookup with a valid asset). -/
def cbTrue : LoadCallback := fun _ => true

/-- Scenario B's four keyframes, as constructed in `GfxReplayTest.player`:
keyframe 0 loads the asset and creates instance key 7; keyframe 1 updates key
7 to translation `(1,2,3)` and semantic id 4; keyframe 2 deletes key 7;
keyframe 3 adds the user transform `"my_user_transform"` with translation
`(4,5,6)`. -/
def kfsB : List Keyframe :=
  [⟨[infoBox], [(7, creationBox)], [], [], []⟩,
   ⟨[], [], [], [(7, ⟨⟨⟨1, 2, 3⟩, idQuat⟩, 4⟩)], []⟩,
   ⟨[], [], [7], [], []⟩,
   ⟨[], [], [], [], [("my_user_transform", ⟨⟨4, 5, 6⟩, idQuat⟩)]⟩]

/-- The Player right after `debugSetKeyframes`: log loaded, index `-1`, no
live state. -/
def initPlayerB : PlayerState := ⟨kfsB, -1, [], []⟩

/-- The seek order exercised by `GfxReplayTest.player`. -/
def seekOrderB : List Int := [-1, 0, 1, 2, 3, -1, 3, 2, 1, 0, -1, 1, -1, 2, 0]

/-- The per-stop assertions of Scenario B, keyed by the index just seeked to:
at 0 the instance exists; at 1 it exists with translation `(1,2,3)` and
semantic id 4; at 2 it does not exist and the user transform is absent; at 3
it does not exist and the user transform is present with translation
`(4,5,6)`; at `-1` nothing exists. -/
def checkStopB (s : PlayerState) (t : Int) : Bool :=
  match t with
  | 0 => (lookupKey 7 s.instances).isSome
  | 1 => lookupKey 7 s.instances == some ⟨⟨⟨1, 2, 3⟩, idQuat⟩, 4⟩
  | 2 => (lookupKey 7 s.instances).isNone
      && (getUserTransform s "my_user_transform").isNone
  | 3 => (lookupKey 7 s.instances).isNone
      && (getUserTransform s "my_user_transform"
            == some ⟨⟨4, 5, 6⟩, idQuat⟩)
  | _ => s.instances.isEmpty

/-- Drive the Player through a seek order, checking each stop's assertion. -/
def seekAndCheckB (s : PlayerState) : List Int → Bool
  | [] => true
  | t :: rest =>
    let s' := setKeyframeIndex cbTrue s t
    checkStopB s' t && seekAndCheckB s' rest

/-- The node state a freshly instantiated box has before any mutation. -/
def nodeBox : NodeState := ⟨idTransform, 0, false⟩

/-- The Recorder session of Scenario A (`GfxReplayTest.recorder`): load and
create the box instance, save; translate it to `(1,2,3)` and set semantic id
7, save; destroy the node and add the user transform, save. -/
def opsA : List RecorderOp :=
  [.load infoBox, .create nodeBox creationBox, .save,
   .setTranslation 0 ⟨1, 2, 3⟩, .setSemId 0 7, .save,
   .destroyNode 0,
   .addUserTransform "my_user_transform" ⟨⟨4, 5, 6⟩, idQuat⟩, .save]

/-- The keyframe Scenario A's first `saveKeyframe` emits. -/
def kf0A : Keyframe :=
  ⟨[infoBox], [(0, creationBox)], [], [(0, ⟨idTransform, 0⟩)], []⟩

end HabitatReplay

namespace HabitatSensor

open HabitatReplay (Vec3)

/-! ### Sensors

Translated from `esp/sensor/VisualSensor.{h,cpp}` and the `SensorSuite`
portion of `esp/sensor/Sensor.cpp` (reviewed as `src/unnamed/part_000`). -/

/-- The fields of `esp::sensor::SensorSpec` the suite operations read. -/
structure SensorSpec where
  uuid : String
  sensorType : Int
  position : Vec3
deriving DecidableEq, Repr

/-- A sensor as stored in a `SensorSuite`: its specification (the identity of
the stored object is its whole value here). -/
structure Sensor where
  spec : SensorSpec
deriving DecidableEq, Repr

/-- Embeds `esp::sensor::SensorSuite`: the `sensors_` map from uuid to sensor,
embedded as an association list. -/
def SensorSuite := List (String × Sensor)

/-- Embeds `SensorSuite::add`: `sensors_[uuid] = sensor` — insert under the sensor
specification's uuid, overwriting any previous binding. -/
def SensorSuite.add (suite : SensorSuite) (sensor : Sensor) : SensorSuite :=
  HabitatReplay.setKey sensor.spec.uuid sensor suite

/-- Embeds `SensorSuite::get`: `sensors_.at(uuid)` — `some` the stored sensor, or
`none` for the `std::out_of_range` failure on a uuid never added. -/
def SensorSuite.get (suite : SensorSuite) (uuid : String) : Option Sensor :=
  HabitatReplay.lookupKey uuid suite

/-- The empty suite. -/
def SensorSuite.empty : SensorSuite := []

/-- Embeds `esp::sensor::VisualSensorSpec`: the resolution is stored height × width
(`vec2i resolution = {128, 128}; // height x width`). -/
structure VisualSensorSpec where
  resolution : Int × Int
deriving DecidableEq, Repr

/-- Embeds `esp::gfx::RenderTarget`, reduced to its framebuffer size, the only field
`bindRenderTarget` consults. -/
structure RenderTarget where
  fbSize : Int × Int
deriving DecidableEq, Repr

/-- Embeds `esp::sensor::VisualSensor`: its spec and the optionally bound render
target `tgt_` (initialized to `nullptr`). -/
structure VisualSensor where
  spec : VisualSensorSpec
  tgt : Option RenderTarget
deriving DecidableEq, Repr

/-- Embeds `VisualSensor::framebufferSize()`: the spec's height × width resolution
returned with components swapped, as `{resolution[1], resolution[0]}` —
width × height. -/
def framebufferSize (spec : VisualSensorSpec) : Int × Int :=
  (spec.resolution.2, spec.resolution.1)

/-- Embeds `VisualSensor::bindRenderTarget`: throws `std::runtime_error` when the
target's framebuffer size differs from the sensor's, otherwise takes
ownership of the target. -/
def bindRenderTarget (s : VisualSensor) (tgt : RenderTarget) :
    Except String VisualSensor :=
  if tgt.fbSize ≠ framebufferSize s.spec then
    Except.error "RenderTarget is not the correct size"
  else
    Except.ok { s with tgt := some tgt }

/-- Embeds `VisualSensor::hasRenderTarget()`: `tgt_ != nullptr`. -/
def hasRenderTarget (s : VisualSensor) : Bool := s.tgt.isSome

/-- Whether a `bindRenderTarget` outcome is the thrown error. -/
def bindThrew (e : Except String VisualSensor) : Bool :=
  match e with
  | .error _ => true
  | .ok _ => false

end HabitatSensor

/-! ## Theorems -/

namespace HabitatReplay

theorem lookupKey_eq_none_iff {κ α : Type} [DecidableEq κ] (k : κ)
    (l : List (κ × α)) : lookupKey k l = none ↔ ∀ p ∈ l, p.1 ≠ k := by
  induction l with
  | nil => simp [lookupKey]
  | cons p t ih =>
    by_cases h : p.1 = k
    · simp [lookupKey, h]
    · simp [lookupKey, h, ih]

theorem updateKey_of_lookup_none {κ α : Type} [DecidableEq κ] (k : κ) (v : α)
    (l : List (κ × α)) (h : lookupKey k l = none) : updateKey k v l = l := by
  induction l with
  | nil => rfl
  | cons p t ih =>
    by_cases hp : p.1 = k
    · simp [lookupKey, hp] at h
    · simp [lookupKey, hp] at h
      simp [updateKey, hp, ih h]

theorem eraseKey_of_lookup_none {κ α : Type} [DecidableEq κ] (k : κ)
    (l : List (κ × α)) (h : lookupKey k l = none) : eraseKey k l = l := by
  induction l with
  | nil => rfl
  | cons p t ih =>
    by_cases hp : p.1 = k
    · simp [lookupKey, hp] at h
    · simp [lookupKey, hp] at h
      simp [eraseKey] at ih ⊢
      exact ⟨hp, ih h⟩

theorem lookupKey_setKey {κ α : Type} [DecidableEq κ] (u k : κ) (v : α)
    (l : List (κ × α)) :
    lookupKey u (setKey k v l) = if k = u then some v else lookupKey u l := by
  induction l with
  | nil =>
    by_cases h : k = u <;> simp [setKey, lookupKey, h]
  | cons p t ih =>
    by_cases hp : p.1 = k
    · by_cases hu : k = u
      · simp [setKey, lookupKey, hp, hu]
      · have hpu : ¬p.1 = u := by rw [hp]; exact hu
        simp [setKey, lookupKey, hp, hu, hpu]
    · by_cases hpu : p.1 = u
      · have hku : ¬k = u := fun he => hp (hpu.trans he.symm)
        have huk : ¬u = k := fun he => hku he.symm
        simp [setKey, lookupKey, hp, hpu, hku, huk]
      · simp [setKey, lookupKey, hp, hpu, ih]

/-- C1 — For every loaded keyframe log and valid indices `i, j ∈ [-1, N-1]`,
`setKeyframeIndex j` on a Player at index `i` yields exactly the state —
live instances with their transforms and semantic ids, and the full
`userTransforms` map — that resetting to `-1` and forward-replaying keyframes
`0 .. j` produces. -/
theorem setKeyframeIndex_eq_full_replay (cb : LoadCallback)
    (kfs : List Keyframe) (i j : Int)
    (hi1 : -1 ≤ i) (_hi2 : i < (kfs.length : Int))
    (hj1 : -1 ≤ j) (hj2 : j < (kfs.length : Int)) :
    setKeyframeIndex cb (stateAt cb kfs i) j = stateAt cb kfs j := by
  have hcond : ¬(j < -1 ∨ ((stateAt cb kfs i).keyframes.length : Int) ≤ j) := by
    simp only [stateAt]
    omega
  rw [setKeyframeIndex, if_neg hcond]
  by_cases hji : j < (stateAt cb kfs i).index
  · rw [if_pos hji]
    simp only [stateAt]
  · rw [if_neg hji]
    have hij : i ≤ j := by
      simp only [stateAt] at hji
      omega
    have hsum : (j + 1).toNat = (i + 1).toNat + (j - i).toNat := by omega
    simp only [stateAt]
    have key : ((kfs.drop (i + 1).toNat).take (j - i).toNat).foldl
        (applyKeyframe cb) (replayInstances cb (kfs.take (i + 1).toNat))
        = replayInstances cb (kfs.take (j + 1).toNat) := by
      rw [replayInstances, replayInstances, hsum, List.take_add,
        List.foldl_append]
    rw [key]

/-- Witness for C1: seeking backward from index 3 to index 1 on the Scenario B
log equals the full forward replay to index 1. -/
theorem setKeyframeIndex_eq_full_replay_witness :
    setKeyframeIndex cbTrue (stateAt cbTrue kfsB 3) 1 = stateAt cbTrue kfsB 1 :=
  setKeyframeIndex_eq_full_replay cbTrue kfsB 3 1 (by decide) (by decide)
    (by decide) (by decide)

/-- C2 — Scenario B: seeking the loaded four-keyframe log through the order
`[-1,0,1,2,3,-1,3,2,1,0,-1,1,-1,2,0]` satisfies every per-stop assertion
(instance existence, its transform `(1,2,3)` and semantic id 4 at index 1,
the user transform's absence at index 2 and presence with translation
`(4,5,6)` at index 3, emptiness at `-1`); and after any valid seek the
accumulated `userTransforms` map is the last-write-wins union over keyframes
`0 .. target`. -/
theorem scenarioB_playback :
    seekAndCheckB initPlayerB seekOrderB = true ∧
    ∀ (cb : LoadCallback) (s : PlayerState) (t : Int),
      -1 ≤ t → t < (s.keyframes.length : Int) →
      (setKeyframeIndex cb s t).userTransforms
        = replayUserTransforms (s.keyframes.take (t + 1).toNat) := by
  refine ⟨by decide, ?_⟩
  intro cb s t h1 h2
  rw [setKeyframeIndex, if_neg (by omega)]
  by_cases h : t < s.index
  · rw [if_pos h]
  · rw [if_neg h]

/-- Witness for C2's hypothesis-bearing conjunct: after seeking the Scenario B
player to index 3, the accumulated map is the union over keyframes 0–3. -/
theorem scenarioB_playback_witness :
    (setKeyframeIndex cbTrue initPlayerB 3).userTransforms
      = replayUserTransforms (initPlayerB.keyframes.take ((3 : Int) + 1).toNat) :=
  scenarioB_playback.2 cbTrue initPlayerB 3 (by decide) (by decide)

/-- C3 — Scenario A: the recorded session produces exactly 3 keyframes;
keyframe 0 carries the one load, the one creation and the initial state
update for the created key; keyframe 1 carries exactly one state update with
translation `(1,2,3)` and semantic id 7; keyframe 2 carries exactly the one
deletion of that key and zero state updates. -/
theorem scenarioA_recording :
    (runRecorder opsA).savedKeyframes.length = 3 ∧
    (runRecorder opsA).savedKeyframes.map Keyframe.loads = [[infoBox], [], []] ∧
    (runRecorder opsA).savedKeyframes.map Keyframe.creations
      = [[(0, creationBox)], [], []] ∧
    (runRecorder opsA).savedKeyframes.map Keyframe.deletions = [[], [], [0]] ∧
    (runRecorder opsA).savedKeyframes.map Keyframe.stateUpdates
      = [[(0, ⟨idTransform, 0⟩)], [(0, ⟨⟨⟨1, 2, 3⟩, idQuat⟩, 7⟩)], []] := by
  decide

/-- C4 — `readKeyframesFromFile` on a missing file or malformed content
leaves the Player with zero keyframes at index `-1` and no partial log; the
operation is a total function, so no failure escapes to the caller. -/
theorem readKeyframes_failure (parse : String → Option (List Keyframe))
    (s : PlayerState) (content : Option String)
    (h : content = none ∨ ∃ txt, content = some txt ∧ parse txt = none) :
    getNumKeyframes (readKeyframesFromFile parse s content) = 0 ∧
    (readKeyframesFromFile parse s content).index = -1 ∧
    (readKeyframesFromFile parse s content).keyframes = [] ∧
    (readKeyframesFromFile parse s content).instances = [] := by
  rcases h with h | ⟨txt, hc, hp⟩
  · subst h
    exact ⟨rfl, rfl, rfl, rfl⟩
  · subst hc
    simp [readKeyframesFromFile, getNumKeyframes, hp]

/-- Witness for C4: reading a missing file (no content) with a parser that
rejects everything leaves an empty player at index `-1`. -/
theorem readKeyframes_failure_witness :
    getNumKeyframes (readKeyframesFromFile (fun _ => none) initPlayerB none) = 0 ∧
    (readKeyframesFromFile (fun _ => none) initPlayerB none).index = -1 ∧
    (readKeyframesFromFile (fun _ => none) initPlayerB none).keyframes = [] ∧
    (readKeyframesFromFile (fun _ => none) initPlayerB none).instances = [] :=
  readKeyframes_failure (fun _ => none) initPlayerB none (Or.inl rfl)

theorem countInfo_append (info : AssetInfo) (l l' : List AssetInfo) :
    countInfo info (l ++ l') = countInfo info l + countInfo info l' := by
  induction l with
  | nil => simp [countInfo]
  | cons a t ih => simp [countInfo, ih, Nat.add_assoc]

theorem countInfo_eq_zero_iff (info : AssetInfo) (l : List AssetInfo) :
    countInfo info l = 0 ↔ info ∉ l := by
  induction l with
  | nil => simp [countInfo]
  | cons a t ih =>
    by_cases h : a = info
    · subst h
      simp [countInfo]
    · have h' : ¬info = a := fun he => h he.symm
      simp [countInfo, h, h', ih]

theorem countInfo_allLoads_step (info : AssetInfo) (r : Recorder)
    (op : RecorderOp) (hle : countInfo info (allLoads r) ≤ 1) :
    countInfo info (allLoads (recordStep r op))
      = if op = RecorderOp.load info then 1
        else countInfo info (allLoads r) := by
  cases op with
  | load info' =>
    by_cases he : info' = info
    · subst he
      rw [if_pos rfl]
      by_cases hmem : info' ∈ allLoads r
      · have h0 : countInfo info' (allLoads r) ≠ 0 := by
          rw [Ne, countInfo_eq_zero_iff]
          simpa using hmem
        simp only [recordStep]
        rw [if_pos hmem]
        omega
      · have h0 : countInfo info' (allLoads r) = 0 :=
          (countInfo_eq_zero_iff info' (allLoads r)).mpr hmem
        simp only [allLoads] at h0
        rw [countInfo_append] at h0
        simp only [recordStep]
        rw [if_neg hmem]
        simp only [allLoads]
        rw [countInfo_append, countInfo_append]
        simp [countInfo]
        omega
    · rw [if_neg (by simpa using he)]
      by_cases hmem : info' ∈ allLoads r
      · simp only [recordStep]
        rw [if_pos hmem]
      · simp only [recordStep]
        rw [if_neg hmem]
        simp only [allLoads]
        rw [countInfo_append, countInfo_append, countInfo_append]
        simp [countInfo, he]
  | create node cinfo => simp [recordStep, allLoads]
  | setTranslation k v => simp [recordStep, allLoads]
  | setSemId k i => simp [recordStep, allLoads]
  | destroyNode k => simp [recordStep, allLoads]
  | addUserTransform name t => simp [recordStep, allLoads]
  | save => simp [recordStep, allLoads, emptyKeyframe]

theorem onLoad_dedup_aux (info : AssetInfo) (ops : List RecorderOp) :
    ∀ r : Recorder, countInfo info (allLoads r) ≤ 1 →
      countInfo info (allLoads (ops.foldl recordStep r))
        = if RecorderOp.load info ∈ ops then 1
          else countInfo info (allLoads r) := by
  induction ops with
  | nil => simp
  | cons op rest ih =>
    intro r hle
    have hstep := countInfo_allLoads_step info r op hle
    have hle' : countInfo info (allLoads (recordStep r op)) ≤ 1 := by
      rw [hstep]
      split
      · omega
      · exact hle
    rw [List.foldl_cons, ih _ hle', hstep]
    by_cases hmem : RecorderOp.load info ∈ rest
    · simp [hmem]
    · by_cases hop : op = RecorderOp.load info
      · subst hop
        simp [hmem]
      · have : ¬RecorderOp.load info = op := fun he => hop he.symm
        simp [hmem, hop, this]

/-- C5 — Load dedup: across the whole log (saved keyframes plus pending), the
number of `loads` entries equal to a given `AssetInfo` is exactly one when
`onLoadRenderAsset` was called with it at least once in the session, and zero
otherwise: a load is appended only if no equal AssetInfo was recorded in this
or any earlier keyframe. -/
theorem onLoad_dedup (ops : List RecorderOp) (info : AssetInfo) :
    countInfo info (allLoads (runRecorder ops))
      = if RecorderOp.load info ∈ ops then 1 else 0 := by
  have h0 : countInfo info (allLoads initRecorder) = 0 := rfl
  rw [runRecorder, onLoad_dedup_aux info ops initRecorder (by rw [h0]; omega), h0]

theorem key_inv_step (r : Recorder) (op : RecorderOp)
    (h1 : (allCreationKeys r).Nodup)
    (h2 : ∀ k ∈ allCreationKeys r, k < r.nextKey) :
    (allCreationKeys (recordStep r op)).Nodup ∧
      ∀ k ∈ allCreationKeys (recordStep r op), k < (recordStep r op).nextKey := by
  cases op with
  | load info =>
    simp only [recordStep]
    split
    · exact ⟨h1, h2⟩
    · exact ⟨h1, h2⟩
  | create node cinfo =>
    have ha : allCreationKeys (recordStep r (.create node cinfo))
        = allCreationKeys r ++ [r.nextKey] := by
      simp [recordStep, allCreationKeys]
    have hn : (recordStep r (.create node cinfo)).nextKey = r.nextKey + 1 := rfl
    rw [ha, hn]
    constructor
    · rw [List.nodup_append]
      refine ⟨h1, List.nodup_singleton _, fun k hk1 hk2 => ?_⟩
      have hlt := h2 k hk1
      have : k = r.nextKey := by simpa using hk2
      omega
    · intro k hk
      rcases List.mem_append.mp hk with h | h
      · have := h2 k h
        omega
      · have : k = r.nextKey := by simpa using h
        omega
  | setTranslation k v => exact ⟨h1, h2⟩
  | setSemId k i => exact ⟨h1, h2⟩
  | destroyNode k => exact ⟨h1, h2⟩
  | addUserTransform name t => exact ⟨h1, h2⟩
  | save =>
    have ha : allCreationKeys (recordStep r .save) = allCreationKeys r := by
      simp [recordStep, allCreationKeys, emptyKeyframe]
    have hn : (recordStep r .save).nextKey = r.nextKey := rfl
    rw [ha, hn]
    exact ⟨h1, h2⟩

theorem key_nonreuse_aux (ops : List RecorderOp) :
    ∀ r : Recorder, (allCreationKeys r).Nodup →
      (∀ k ∈ allCreationKeys r, k < r.nextKey) →
      (allCreationKeys (ops.foldl recordStep r)).Nodup := by
  induction ops with
  | nil => exact fun r h1 _ => h1
  | cons op rest ih =>
    intro r h1 h2
    have hs := key_inv_step r op h1 h2
    exact ih (recordStep r op) hs.1 hs.2

/-- C6 — Key non-reuse: across every Recorder session, no two creation
records in the whole log (saved keyframes plus pending) share a
RenderAssetInstanceKey — each creation allocates a fresh, never-reused
key. -/
theorem key_nonreuse (ops : List RecorderOp) :
    (allCreationKeys (runRecorder ops)).Nodup :=
  key_nonreuse_aux ops initRecorder (by decide) (by decide)

theorem creation_covered_step (r : Recorder) (op : RecorderOp)
    (hsaved : ∀ kf ∈ r.savedKeyframes, ∀ k ∈ kf.creations.map Prod.fst,
      k ∈ kf.stateUpdates.map Prod.fst)
    (hpend : ∀ k ∈ r.pending.creations.map Prod.fst,
      k ∈ r.pending.stateUpdates.map Prod.fst) :
    (∀ kf ∈ (recordStep r op).savedKeyframes,
      ∀ k ∈ kf.creations.map Prod.fst, k ∈ kf.stateUpdates.map Prod.fst) ∧
      ∀ k ∈ (recordStep r op).pending.creations.map Prod.fst,
        k ∈ (recordStep r op).pending.stateUpdates.map Prod.fst := by
  cases op with
  | load info =>
    simp only [recordStep]
    split
    · exact ⟨hsaved, hpend⟩
    · exact ⟨hsaved, hpend⟩
  | create node cinfo =>
    refine ⟨hsaved, fun k hk => ?_⟩
    simp only [recordStep, List.map_append, List.mem_append] at hk ⊢
    rcases hk with h | h
    · exact Or.inl (hpend k h)
    · exact Or.inr (by simpa using h)
  | setTranslation k v => exact ⟨hsaved, hpend⟩
  | setSemId k i => exact ⟨hsaved, hpend⟩
  | destroyNode k => exact ⟨hsaved, hpend⟩
  | addUserTransform name t => exact ⟨hsaved, hpend⟩
  | save =>
    constructor
    · intro kf hkf
      simp only [recordStep, List.mem_append] at hkf
      rcases hkf with h | h
      · exact hsaved kf h
      · have hkf' : kf = { r.pending with
            deletions := r.pending.deletions ++
              ((r.trackedNodes.filter (fun p => p.2.destroyed)).map Prod.fst)
            stateUpdates := r.pending.stateUpdates ++
              pendingUpdates (r.trackedNodes.filter (fun p => !p.2.destroyed))
                r.latestRecorded } := by
          simpa using h
        subst hkf'
        intro k hk
        simp only [List.map_append, List.mem_append]
        exact Or.inl (hpend k hk)
    · intro k hk
      simp [recordStep, emptyKeyframe] at hk

theorem creation_covered_aux (ops : List RecorderOp) :
    ∀ r : Recorder,
      (∀ kf ∈ r.savedKeyframes, ∀ k ∈ kf.creations.map Prod.fst,
        k ∈ kf.stateUpdates.map Prod.fst) →
      (∀ k ∈ r.pending.creations.map Prod.fst,
        k ∈ r.pending.stateUpdates.map Prod.fst) →
      ∀ kf ∈ (ops.foldl recordStep r).savedKeyframes,
        ∀ k ∈ kf.creations.map Prod.fst, k ∈ kf.stateUpdates.map Prod.fst := by
  induction ops with
  | nil => exact fun r h1 _ => h1
  | cons op rest ih =>
    intro r h1 h2
    have hs := creation_covered_step r op h1 h2
    exact ih (recordStep r op) hs.1 hs.2

/-- C7 — Every key appearing in a saved keyframe's `creations` also appears
in that same keyframe's `stateUpdates`: `onCreateRenderAssetInstance`
immediately force-records the initial state for the freshly allocated key. -/
theorem creation_has_state_update (ops : List RecorderOp) (kf : Keyframe)
    (hkf : kf ∈ (runRecorder ops).savedKeyframes)
    (k : RenderAssetInstanceKey) (hk : k ∈ kf.creations.map Prod.fst) :
    k ∈ kf.stateUpdates.map Prod.fst :=
  creation_covered_aux ops initRecorder (by simp [initRecorder])
    (by simp [initRecorder, emptyKeyframe]) kf hkf k hk

/-- Witness for C7: in Scenario A's first saved keyframe, the created key 0
indeed carries a state update. -/
theorem creation_has_state_update_witness :
    0 ∈ kf0A.stateUpdates.map Prod.fst :=
  creation_has_state_update opsA kf0A (by decide) 0 (by decide)

/-- C8 — Recovery from asset instantiation failure during a forward seek:
(1) for every callback, any valid seek reaches the target index (a failure
never aborts the seek); (2) creations whose callback fails are exactly
skipped — applying creations under `cb` equals applying only the successful
ones with an always-succeeding callback, so all other keys in the keyframe
are still bound; (3) a state update and (4) a deletion addressed to an
unbound key are no-ops on the live-instance map. -/
theorem seek_survives_asset_failure :
    (∀ (cb : LoadCallback) (s : PlayerState) (j : Int),
      -1 ≤ j → j < (s.keyframes.length : Int) →
      (setKeyframeIndex cb s j).index = j) ∧
    (∀ (cb : LoadCallback)
      (inst : List (RenderAssetInstanceKey × RenderAssetInstanceState))
      (cs : List (RenderAssetInstanceKey × CreationInfo)),
      applyCreations cb inst cs
        = applyCreations (fun _ => true) inst (cs.filter (fun c => cb c.2))) ∧
    (∀ (inst : List (RenderAssetInstanceKey × RenderAssetInstanceState))
      (k : RenderAssetInstanceKey) (st : RenderAssetInstanceState),
      lookupKey k inst = none → applyStateUpdates inst [(k, st)] = inst) ∧
    (∀ (inst : List (RenderAssetInstanceKey × RenderAssetInstanceState))
      (k : RenderAssetInstanceKey),
      lookupKey k inst = none → applyDeletions inst [k] = inst) := by
  refine ⟨?_, ?_, ?_, ?_⟩
  · intro cb s j h1 h2
    rw [setKeyframeIndex, if_neg (by omega)]
    by_cases h : j < s.index
    · rw [if_pos h]
    · rw [if_neg h]
  · intro cb inst cs
    induction cs generalizing inst with
    | nil => rfl
    | cons c t ih =>
      by_cases hc : cb c.2
      · rw [applyCreations, if_pos hc, ih]
        simp [applyCreations, hc]
      · rw [applyCreations, if_neg hc, ih]
        simp [hc]
  · intro inst k st h
    rw [applyStateUpdates, applyStateUpdates, updateKey_of_lookup_none k st inst h]
  · intro inst k h
    rw [applyDeletions, applyDeletions, eraseKey_of_lookup_none k inst h]

/-- Witness for C8: with an always-failing loader the Scenario B player still
reaches index 3; a failed creation binds nothing; updates and deletions on
the unbound key 7 leave the empty live map unchanged. -/
theorem seek_survives_asset_failure_witness :
    (setKeyframeIndex (fun _ => false) initPlayerB 3).index = 3 ∧
    applyCreations (fun _ => false) [] [(7, creationBox)]
      = applyCreations (fun _ => true) []
          ([(7, creationBox)].filter (fun c => (fun _ => false) c.2)) ∧
    applyStateUpdates [] [(7, defaultState)] = [] ∧
    applyDeletions [] [7] = [] :=
  ⟨seek_survives_asset_failure.1 (fun _ => false) initPlayerB 3 (by decide)
      (by decide),
    seek_survives_asset_failure.2.1 (fun _ => false) [] [(7, creationBox)],
    seek_survives_asset_failure.2.2.1 [] 7 defaultState rfl,
    seek_survives_asset_failure.2.2.2 [] 7 rfl⟩

end HabitatReplay

namespace HabitatSensor

/-- C9 — `VisualSensor::bindRenderTarget` throws exactly when the target's
framebuffer size differs from the sensor's `framebufferSize()`, which is the
spec's height × width resolution returned with components swapped as
width × height; when the sizes match the target is bound and
`hasRenderTarget()` subsequently returns `true`. -/
theorem bindRenderTarget_size_check (s : VisualSensor) (tgt : RenderTarget) :
    (bindThrew (bindRenderTarget s tgt) = true
      ↔ tgt.fbSize ≠ framebufferSize s.spec) ∧
    framebufferSize s.spec = (s.spec.resolution.2, s.spec.resolution.1) ∧
    (tgt.fbSize = framebufferSize s.spec →
      bindRenderTarget s tgt = Except.ok { s with tgt := some tgt } ∧
      hasRenderTarget { s with tgt := some tgt } = true) := by
  refine ⟨?_, rfl, ?_⟩
  · by_cases h : tgt.fbSize = framebufferSize s.spec
    · simp [bindRenderTarget, bindThrew, h]
    · simp [bindRenderTarget, bindThrew, h]
  · intro h
    simp [bindRenderTarget, bindThrew, hasRenderTarget, h]

/-- Witness for C9: a sensor with resolution height 128 × width 64 accepts a
target whose framebuffer is 64 × 128 (width × height) and then reports a
bound render target. -/
theorem bindRenderTarget_size_check_witness :
    bindRenderTarget ⟨⟨(128, 64)⟩, none⟩ ⟨(64, 128)⟩
        = Except.ok ⟨⟨(128, 64)⟩, some ⟨(64, 128)⟩⟩ ∧
      hasRenderTarget ⟨⟨(128, 64)⟩, some ⟨(64, 128)⟩⟩ = true :=
  (bindRenderTarget_size_check ⟨⟨(128, 64)⟩, none⟩ ⟨(64, 128)⟩).2.2 (by decide)

theorem suite_get_foldl (adds : List Sensor) :
    ∀ (suite : SensorSuite) (uuid : String),
      SensorSuite.get (adds.foldl SensorSuite.add suite) uuid
        = match (adds.filter (fun s => s.spec.uuid == uuid)).getLast? with
          | some s => some s
          | none => SensorSuite.get suite uuid := by
  induction adds with
  | nil => intro suite uuid; rfl
  | cons a t ih =>
    intro suite uuid
    rw [List.foldl_cons, ih]
    by_cases ha : a.spec.uuid = uuid
    · have hb : (a.spec.uuid == uuid) = true := by simpa using ha
      simp only [List.filter_cons, hb, if_true]
      cases hf : t.filter (fun s => s.spec.uuid == uuid) with
      | nil =>
        simp only [List.getLast?_singleton]
        show HabitatReplay.lookupKey uuid
            (HabitatReplay.setKey a.spec.uuid a suite) = some a
        rw [HabitatReplay.lookupKey_setKey, if_pos ha]
      | cons y ys =>
        rw [List.getLast?_cons_cons]
        cases hg : (y :: ys).getLast? with
        | some x => rfl
        | none => simp at hg
    · have hb : (a.spec.uuid == uuid) = false := by simpa using ha
      simp only [List.filter_cons, hb, Bool.false_eq_true, if_false]
      cases hg : (t.filter (fun s => s.spec.uuid == uuid)).getLast? with
      | some x => rfl
      | none =>
        show HabitatReplay.lookupKey uuid
            (HabitatReplay.setKey a.spec.uuid a suite)
          = HabitatReplay.lookupKey uuid suite
        rw [HabitatReplay.lookupKey_setKey, if_neg ha]

/-- C10 — `SensorSuite::add` stores a sensor under its specification's uuid
with last-write-wins overwrite, so `get uuid` after a sequence of adds
returns the most recently added sensor carrying that uuid; `get` on a uuid
never added fails (returns no sensor). -/
theorem sensorSuite_add_get (adds : List Sensor) (uuid : String) :
    SensorSuite.get (adds.foldl SensorSuite.add SensorSuite.empty) uuid
        = (adds.filter (fun s => s.spec.uuid == uuid)).getLast? ∧
      ((∀ s ∈ adds, s.spec.uuid ≠ uuid) →
        SensorSuite.get (adds.foldl SensorSuite.add SensorSuite.empty) uuid
          = none) := by
  have h := suite_get_foldl adds SensorSuite.empty uuid
  constructor
  · rw [h]
    cases (adds.filter (fun s => s.spec.uuid == uuid)).getLast? with
    | some x => rfl
    | none => rfl
  · intro hnone
    rw [h]
    have hfilter : adds.filter (fun s => s.spec.uuid == uuid) = [] := by
      rw [List.filter_eq_nil_iff]
      intro s hs
      simpa using hnone s hs
    rw [hfilter]
    rfl

/-- Witness for C10: adding two sensors sharing uuid `"rgb"` then one with
uuid `"depth"` — `get "rgb"` returns the second `"rgb"` sensor (last write
wins), and a uuid never added yields no sensor. -/
theorem sensorSuite_add_get_witness :
    SensorSuite.get
        ([⟨⟨"rgb", 0, ⟨0, 0, 0⟩⟩⟩, ⟨⟨"rgb", 1, ⟨0, 0, 0⟩⟩⟩,
          ⟨⟨"depth", 2, ⟨0, 0, 0⟩⟩⟩].foldl SensorSuite.add SensorSuite.empty)
        "rgb"
      = ([⟨⟨"rgb", 0, ⟨0, 0, 0⟩⟩⟩, ⟨⟨"rgb", 1, ⟨0, 0, 0⟩⟩⟩,
          (⟨⟨"depth", 2, ⟨0, 0, 0⟩⟩⟩ : Sensor)].filter
            (fun s => s.spec.uuid == "rgb")).getLast? ∧
    SensorSuite.get
        ([⟨⟨"rgb", 0, ⟨0, 0, 0⟩⟩⟩, ⟨⟨"rgb", 1, ⟨0, 0, 0⟩⟩⟩,
          (⟨⟨"depth", 2, ⟨0, 0, 0⟩⟩⟩ : Sensor)].foldl SensorSuite.add
          SensorSuite.empty)
        "semantic"
      = none :=
  ⟨(sensorSuite_add_get
      [⟨⟨"rgb", 0, ⟨0, 0, 0⟩⟩⟩, ⟨⟨"rgb", 1, ⟨0, 0, 0⟩⟩⟩,
        ⟨⟨"depth", 2, ⟨0, 0, 0⟩⟩⟩] "rgb").1,
    (sensorSuite_add_get
      [⟨⟨"rgb", 0, ⟨0, 0, 0⟩⟩⟩, ⟨⟨"rgb", 1, ⟨0, 0, 0⟩⟩⟩,
        ⟨⟨"depth", 2, ⟨0, 0, 0⟩⟩⟩] "semantic").2 (by decide)⟩

end HabitatSensor

